import Mathlib

/-!
Shallow embedding of the Amazon Connect service-quota monitor
(src/lambda_function.py) and verification of its specification claims.

Modelling conventions:
* Python numbers that flow into utilization arithmetic are modelled as `ℚ`
  (the source uses ints and floats; binary floating point representation and
  its tie-breaking in `round` are abstracted by exact rational arithmetic).
* A remote call made through `call_service_api` returns the parsed response
  or `None` when the call failed after retries (see `_call_service_api_basic`,
  which returns `None` on exhausted retries, permission and validation
  errors); we model a response as an `Option` value, `none` meaning the call
  failed or the response was falsy.
* Dictionary `.get(key, default)` is `Option.getD`; Python `or` on strings and
  truthiness of strings (empty string is falsy) are modelled explicitly.
* Wall-clock timestamps (`datetime.utcnow()`) carried in result records are
  not modelled; they are never read by the logic under verification.
* Python exceptions raised by library internals (as opposed to failed remote
  calls, which `call_service_api` converts to `None`) are outside the data
  model; every embedded function is total on its modelled inputs.
-/

namespace ConnectQuotaMonitor

/-- Python `int()` applied to a number: truncation toward zero. -/
def pytrunc (q : ℚ) : ℤ := if q < 0 then ⌈q⌉ else ⌊q⌋

/-- Python `round(x, 2)`: rounding to two decimal places.  Mathlib `round` is
round-half-up; Python uses round-half-even on binary floats.  The two agree
except on exact `.xx5` decimal ties, which do not occur in any claim here. -/
def round2 (q : ℚ) : ℚ := (round (q * 100) : ℤ) / 100

/-- Python truthiness of an optional string (`None` and the empty string are
falsy). -/
def pyTruthy : Option String → Bool
  | none => false
  | some s => !s.isEmpty

/-- Python `s or default` for an optional string. -/
def pyOr (s : Option String) (dflt : String) : String :=
  match s with
  | none => dflt
  | some v => if v.isEmpty then dflt else v

/-- One CloudWatch datapoint: its timestamp and the entry stored under the
requested statistic key (`dp.get(statistic, 0)` / `dp.get('Sum', 0)` in the
source); `none` models a missing key. -/
structure Datapoint where
  timestamp : ℕ
  value : Option ℚ
deriving DecidableEq

/-- A `get_metric_statistics` response: its `Datapoints` list. -/
structure CWResponse where
  datapoints : List Datapoint
deriving DecidableEq

/-- The element the source selects with
`sorted(response['Datapoints'], key=lambda x: x['Timestamp'], reverse=True)[0]`:
the head of a stable descending sort by timestamp, i.e. the first datapoint
of maximal timestamp in the original order.  This fold returns exactly that
element: a later element replaces the current champion only when its
timestamp is strictly greater. -/
def latestDatapoint : List Datapoint → Option Datapoint
  | [] => none
  | d :: ds =>
    match latestDatapoint ds with
    | none => some d
    | some e => some (if d.timestamp < e.timestamp then e else d)

/-- Embedding of `_monitor_via_cloudwatch` (src/lambda_function.py:2992-3039).
Requires `metric_name`; a failed call or an empty `Datapoints` list yields a
usage of `0`; otherwise the value of the most recent datapoint, truncated by
`int()`.  The metric dimensions, the 15-minute window and the 5-minute period
only shape the remote request and are not part of the value model. -/
def monitorViaCloudwatch (metricName : Option String) (resp : Option CWResponse) : Option ℤ :=
  match metricName with
  | none => none
  | some _ =>
    match resp with
    | none => some 0
    | some r =>
      if r.datapoints.isEmpty then some 0
      else
        match latestDatapoint r.datapoints with
        | none => some 0
        | some d => some (pytrunc (d.value.getD 0))

/-- Embedding of `_monitor_via_cloudwatch_api` (src/lambda_function.py:3041-3089).
Requires an `operation`; a failed call or an empty `Datapoints` list yields
`0`; otherwise the sum of the per-period `Sum` entries divided by 300 seconds,
truncated by `int()` (the observed calls-per-second rate). -/
def monitorViaCloudwatchApi (operationKey : Option String) (resp : Option CWResponse) : Option ℤ :=
  match operationKey with
  | none => none
  | some _ =>
    match resp with
    | none => some 0
    | some r =>
      if r.datapoints.isEmpty then some 0
      else some (pytrunc ((r.datapoints.map (fun dp => dp.value.getD 0)).sum / 300))

/-- The `Quota` object of a `get_service_quota` response:
`UsageMetric.MetricValue` (default 0) and `Value` (default: the quota's
configured `default_limit`). -/
structure QuotaInfo where
  usageMetricValue : Option ℚ
  value : Option ℚ
deriving DecidableEq

/-- A `get_service_quota` response; the `Quota` key may be absent. -/
structure SQResponse where
  quota : Option QuotaInfo
deriving DecidableEq

/-- Embedding of `_monitor_via_service_quotas` (src/lambda_function.py:3091-3127).
Returns the pair (current usage, limit).  A missing quota code, a failed
call or a response without `Quota` yields `(none, default_limit)`; otherwise
both values are truncated by `int()`. -/
def monitorViaServiceQuotas (defaultLimit : ℚ) (quotaCode : Option String)
    (resp : Option SQResponse) : Option ℤ × ℚ :=
  if pyTruthy quotaCode = false then (none, defaultLimit)
  else
    match resp with
    | none => (none, defaultLimit)
    | some r =>
      match r.quota with
      | none => (none, defaultLimit)
      | some qi =>
        (some (pytrunc (qi.usageMetricValue.getD 0)),
         ((pytrunc (qi.value.getD defaultLimit) : ℤ) : ℚ))

/-- One page of a paginated listing response: the items stored under the
response key and whether a `NextToken` continuation cursor is present. -/
structure Page (α : Type) where
  items : List α
  nextToken : Bool

/-- The page ceiling `max_pages = 100` of the pagination loops. -/
def maxPages : ℕ := 100

/-- The fallback pagination loop of `_count_via_pagination_enhanced`
(src/lambda_function.py:3224-3260).  `pages i` is the response to the
`i`-th listing call (`none` models a falsy response, on which the source
breaks and returns the partial count).  In the source the loop counter
`page_count` equals the index of the page fetched in the current iteration,
because it is incremented exactly once per completed iteration that
continues; `fuel` is the number of loop iterations still permitted by the
guard `page_count < max_pages`, so the loop is entered with `fuel = maxPages`. -/
def countPagesFrom {α : Type} (pages : ℕ → Option (Page α)) : ℕ → ℕ → ℕ
  | 0, _ => 0
  | fuel + 1, idx =>
    match pages idx with
    | none => 0
    | some p => p.items.length + (if p.nextToken then countPagesFrom pages fuel (idx + 1) else 0)

/-- Embedding of `_count_via_pagination_enhanced` (fallback path, the
in-repository implementation; the optional external performance optimizer is
not part of this repository's source). -/
def countViaPaginationEnhanced {α : Type} (pages : ℕ → Option (Page α)) : ℕ :=
  countPagesFrom pages maxPages 0

/-- The fallback collection loop of `_get_all_resources`
(src/lambda_function.py:3284-3308), accumulating the items themselves. -/
def collectPagesFrom {α : Type} (pages : ℕ → Option (Page α)) : ℕ → ℕ → List α
  | 0, _ => []
  | fuel + 1, idx =>
    match pages idx with
    | none => []
    | some p => p.items ++ (if p.nextToken then collectPagesFrom pages fuel (idx + 1) else [])

/-- Embedding of `_get_all_resources` (fallback path). -/
def getAllResources {α : Type} (pages : ℕ → Option (Page α)) : List α :=
  collectPagesFrom pages maxPages 0

/-- One level object of a `HierarchyStructure`; `name` is its `Name` entry. -/
structure HierarchyLevel where
  name : Option String
deriving DecidableEq

/-- The `HierarchyStructure` object of `describe_user_hierarchy_structure`. -/
structure HierarchyStructure where
  levelOne : Option HierarchyLevel
  levelTwo : Option HierarchyLevel
  levelThree : Option HierarchyLevel
  levelFour : Option HierarchyLevel
  levelFive : Option HierarchyLevel
deriving DecidableEq

/-- The per-level test `hierarchy.get(level) and hierarchy[level].get('Name')`
(both the level object and its name must be truthy). -/
def levelDefined : Option HierarchyLevel → Bool
  | none => false
  | some l =>
    match l.name with
    | none => false
    | some s => !s.isEmpty

/-- Embedding of `_count_hierarchy_levels` (src/lambda_function.py:3314-3334).
A failed call, a response without `HierarchyStructure` — and, via the
enclosing `except`, any error — all yield the count `0`, indistinguishable
from a genuinely empty hierarchy. -/
def countHierarchyLevels (resp : Option HierarchyStructure) : ℕ :=
  match resp with
  | none => 0
  | some h =>
    ([h.levelOne, h.levelTwo, h.levelThree, h.levelFour, h.levelFive]).foldl
      (fun n lvl => if levelDefined lvl then n + 1 else n) 0

/-- Embedding of the `_get_response_key` table (src/lambda_function.py:3156-3204). -/
def getResponseKey (service apiName : String) : Option String :=
  match service, apiName with
  | "connect", "list_instances" => some "InstanceSummaryList"
  | "connect", "list_users" => some "UserSummaryList"
  | "connect", "list_queues" => some "QueueSummaryList"
  | "connect", "list_phone_numbers" => some "PhoneNumberSummaryList"
  | "connect", "list_phone_numbers_v2" => some "ListPhoneNumbersSummaryList"
  | "connect", "list_hours_of_operations" => some "HoursOfOperationSummaryList"
  | "connect", "list_contact_flows" => some "ContactFlowSummaryList"
  | "connect", "list_contact_flow_modules" => some "ContactFlowModulesSummaryList"
  | "connect", "list_routing_profiles" => some "RoutingProfileSummaryList"
  | "connect", "list_security_profiles" => some "SecurityProfileSummaryList"
  | "connect", "list_quick_connects" => some "QuickConnectSummaryList"
  | "connect", "list_agent_statuses" => some "AgentStatusSummaryList"
  | "connect", "list_prompts" => some "PromptSummaryList"
  | "connect", "list_task_templates" => some "TaskTemplates"
  | "connect", "list_evaluation_forms" => some "EvaluationFormSummaryList"
  | "connect", "list_integration_associations" => some "IntegrationAssociationSummaryList"
  | "connect", "list_bots" => some "LexBots"
  | "connect", "list_lambda_functions" => some "LambdaFunctions"
  | "connect", "list_predefined_attributes" => some "PredefinedAttributes"
  | "connectcases", "list_domains" => some "domains"
  | "connectcases", "list_fields" => some "fields"
  | "connectcases", "list_templates" => some "templates"
  | "customer-profiles", "list_domains" => some "Items"
  | "customer-profiles", "list_profile_object_types" => some "Items"
  | "voice-id", "list_domains" => some "DomainSummaries"
  | "voice-id", "list_speakers" => some "SpeakerSummaries"
  | "voice-id", "list_fraudsters" => some "FraudsterSummaries"
  | "wisdom", "list_knowledge_bases" => some "knowledgeBaseSummaries"
  | "wisdom", "list_contents" => some "contentSummaries"
  | "connect-campaigns", "list_campaigns" => some "campaignSummaryList"
  | _, _ => none

/-- A parent resource as seen by `_monitor_via_api_count_multi`: only its
entry under the configured join key (`parent_resource.get(parent_key)`) is
relevant; `none` models a missing key. -/
structure ParentRes where
  joinKeyValue : Option String
deriving DecidableEq

/-- A quota's monitoring configuration: the fields of an
`ENHANCED_CONNECT_QUOTA_METRICS` entry read by the resolution code, each
optional because the source reads them with `dict.get`. -/
structure MetricConfig where
  name : Option String := none
  category : Option String := none
  scope : Option String := none
  method : Option String := none
  service : Option String := none
  default_limit : Option ℚ := none
  context_required : Option Bool := none
  api : Option String := none
  parent_service : Option String := none
  parent_api : Option String := none
  parent_key : Option String := none
  metric_name : Option String := none
  operationKey : Option String := none

/-- The remote world a single quota resolution interacts with: the response
of every call the strategies can make.  `none` responses model failed calls. -/
structure Env where
  cwResponse : Option CWResponse
  cwApiResponse : Option CWResponse
  sqResponse : Option SQResponse
  pages : ℕ → Option (Page Unit)
  instancePages : ℕ → Option (Page Unit)
  hierarchy : Option HierarchyStructure
  parentPages : ℕ → Option (Page ParentRes)
  childPages : String → ℕ → Option (Page Unit)

/-- Embedding of `_monitor_via_api_count` (src/lambda_function.py:2913-2940).
Requires an `api`; the `_build_api_parameters` call always returns a dict
(its `None` check is unreachable), so parameters live inside `Env.pages`.
An unknown response key yields `none`; the two special cases
(hierarchy-depth counting and whole-account instance counting) bypass
pagination; everything else is counted through the pagination loop. -/
def monitorViaApiCount (cfg : MetricConfig) (env : Env) : Option ℕ :=
  let service := cfg.service.getD "connect"
  match cfg.api with
  | none => none
  | some apiName =>
    match getResponseKey service apiName with
    | none => none
    | some _ =>
      if service = "connect" ∧ apiName = "describe_user_hierarchy_structure" then
        some (countHierarchyLevels env.hierarchy)
      else if service = "connect" ∧ apiName = "list_instances" then
        some (countViaPaginationEnhanced env.instancePages)
      else
        some (countViaPaginationEnhanced env.pages)

/-- Embedding of `_monitor_via_api_count_multi` (src/lambda_function.py:2942-2990).
All five configuration fields must be truthy (`if not all([...])`), and the
parent response key must be known.  Parents are fully enumerated first; an
empty parent list yields the count `0`; then one child count per parent whose
join-key entry is truthy, summed; a parent with a missing (or empty) join-key
entry is skipped and contributes nothing.  The child response key is not
validated by the source; it lives inside `Env.childPages`.  The child count
is a total pagination count in this model, so the source's
`if child_count is not None` guard always passes. -/
def monitorViaApiCountMulti (cfg : MetricConfig) (env : Env) : Option ℕ :=
  match cfg.service, cfg.api, cfg.parent_service, cfg.parent_api, cfg.parent_key with
  | some service, some apiName, some pService, some pApi, some pKey =>
    if service.isEmpty ∨ apiName.isEmpty ∨ pService.isEmpty ∨ pApi.isEmpty ∨ pKey.isEmpty then
      none
    else
      match getResponseKey pService pApi with
      | none => none
      | some _ =>
        let parentResources := getAllResources env.parentPages
        if parentResources.isEmpty then some 0
        else
          some (parentResources.foldl
            (fun total pr =>
              match pr.joinKeyValue with
              | none => total
              | some pid =>
                if pid.isEmpty then total
                else total + countViaPaginationEnhanced (env.childPages pid))
            0)
  | _, _, _, _, _ => none

/-- The monitoring result dictionary built by `_process_quota_config`
(src/lambda_function.py:2896-2908), minus the wall-clock timestamp. -/
structure UtilizationResult where
  quota_code : String
  quota_name : String
  category : String
  scope : String
  current_usage : ℚ
  quota_limit : ℚ
  utilization_percentage : ℚ
  instance_id : Option String
  method : String
  service : String
deriving DecidableEq

/-- The utilization computation and result construction at the end of
`_process_quota_config` (src/lambda_function.py:2889-2908): the percentage is
`current/limit*100` when `limit > 0` and `0` otherwise, stored after
`round(·, 2)`. -/
def mkUtilizationResult (quotaCode : Option String) (quotaName category scope : String)
    (currentUsage quotaLimit : ℚ) (instanceId : Option String)
    (methodName serviceName : String) : UtilizationResult :=
  let utilizationPercentage : ℚ :=
    if quotaLimit > 0 then currentUsage / quotaLimit * 100 else 0
  { quota_code := pyOr quotaCode "unknown"
    quota_name := quotaName
    category := category
    scope := scope
    current_usage := currentUsage
    quota_limit := quotaLimit
    utilization_percentage := round2 utilizationPercentage
    instance_id := instanceId
    method := methodName
    service := serviceName }

/-- Embedding of `_process_quota_config` (src/lambda_function.py:2817-2911),
enhanced-format path (the legacy path only resolves the catalog entry and
then joins it).  The second component is the sequence of
`record_service_health` events the call emits: `(service, true)` after the
scope checks pass, followed by `(service, false)` when the selected strategy
reports no usage. -/
def processQuotaConfig (instanceId : Option String) (cfg : MetricConfig)
    (quotaCode : Option String) (env : Env) :
    Option UtilizationResult × List (String × Bool) :=
  let quotaName := cfg.name.getD "Unknown Quota"
  let defaultLimit : ℚ := cfg.default_limit.getD 0
  let service := cfg.service.getD "connect"
  let scope := cfg.scope.getD "INSTANCE"
  if scope = "INSTANCE" ∧ pyTruthy instanceId = false then (none, [])
  else if scope = "ACCOUNT" ∧ pyTruthy instanceId = true then (none, [])
  else
    let health0 : List (String × Bool) := [(service, true)]
    let dispatch : Option (Option ℚ × ℚ) :=
      if cfg.method = some "api_count" then
        some ((monitorViaApiCount cfg env).map (fun n => (n : ℚ)), defaultLimit)
      else if cfg.method = some "api_count_multi" then
        some ((monitorViaApiCountMulti cfg env).map (fun n => (n : ℚ)), defaultLimit)
      else if cfg.method = some "cloudwatch" then
        some ((monitorViaCloudwatch cfg.metric_name env.cwResponse).map (fun z => (z : ℚ)),
          defaultLimit)
      else if cfg.method = some "cloudwatch_api" then
        some ((monitorViaCloudwatchApi cfg.operationKey env.cwApiResponse).map (fun z => (z : ℚ)),
          defaultLimit)
      else if cfg.method = some "service_quotas" then
        some ((monitorViaServiceQuotas defaultLimit quotaCode env.sqResponse).1.map
            (fun z => (z : ℚ)),
          (monitorViaServiceQuotas defaultLimit quotaCode env.sqResponse).2)
      else none
    match dispatch with
    | none => (none, health0)
    | some (usageOpt, quotaLimit) =>
      match usageOpt with
      | none => (none, health0 ++ [(service, false)])
      | some currentUsage =>
        (some (mkUtilizationResult quotaCode quotaName (cfg.category.getD "UNKNOWN") scope
          currentUsage quotaLimit instanceId (cfg.method.getD "") service), health0)

/-- The per-quota monitoring loops of `monitor_all_instances_dynamically`
(src/lambda_function.py:2207-2221 for the account pass and 2342-2357 for each
instance pass): each quota is resolved independently and appended when the
result is truthy; a quota that resolves to `None` is simply skipped.
`envOf` gives each quota code its own remote world. -/
def monitorQuotaList (instanceId : Option String) (quotas : List (String × MetricConfig))
    (envOf : String → Env) : List UtilizationResult :=
  quotas.filterMap (fun q => (processQuotaConfig instanceId q.2 (some q.1) (envOf q.1)).1)

/-- Python `max` over a list of utilization values (the source only calls it
on a non-empty list; the `[]` case is an unreachable sentinel). -/
def maxUtil : List ℚ → ℚ
  | [] => 0
  | u :: us => us.foldl max u

/-- Embedding of `AlertConsolidationEngine._determine_severity`
(src/lambda_function.py:4171-4185). -/
def determineSeverity (violations : List UtilizationResult) : String :=
  if violations.isEmpty then "INFO"
  else
    let maxUtilization := maxUtil (violations.map (fun v => v.utilization_percentage))
    if 95 ≤ maxUtilization then "CRITICAL"
    else if 90 ≤ maxUtilization then "HIGH"
    else if 85 ≤ maxUtilization then "MEDIUM"
    else "LOW"

/-- Per-member severity as worded by claim C5 (Critical at 95 or above, High
at 90, Medium at 85, Low otherwise), stated for comparison with the code's
per-alert assignment. -/
def memberSeverity (u : ℚ) : String :=
  if 95 ≤ u then "CRITICAL"
  else if 90 ≤ u then "HIGH"
  else if 85 ≤ u then "MEDIUM"
  else "LOW"

/-- Numeric rank of the severity tiers, for taking maxima of severities. -/
def sevRank : String → ℕ
  | "CRITICAL" => 3
  | "HIGH" => 2
  | "MEDIUM" => 1
  | _ => 0

/-- The larger of two severities (by rank). -/
def sevMax (a b : String) : String := if sevRank a < sevRank b then b else a

/-- Maximum of a list of member severities, as worded by claim C5. -/
def maxSeverity : List String → String
  | [] => "LOW"
  | s :: ss => ss.foldl sevMax s

/-- Reduction of a returned time series to a single value per the declared
statistic, as worded by claim C2 (max of points, mean of points, or total),
stated for comparison with the code's selection of the latest datapoint. -/
def claimStatisticReduce (statistic : String) (points : List ℚ) : ℚ :=
  if statistic = "Maximum" then maxUtil points
  else if statistic = "Average" then points.sum / (points.length : ℚ)
  else points.sum

/-- The per-instance block of `monitoring_results['instance_results']`
(src/lambda_function.py:2359-2364): the alias and the result list. -/
structure InstanceData where
  instance_alias : String
  results : List UtilizationResult
deriving DecidableEq

/-- The monitoring summary consumed by the alert engine: the account-level
results and the per-instance blocks (dictionary modelled as an association
list, keys unique in an actual run). -/
structure MonitoringResults where
  account_results : List UtilizationResult
  instance_results : List (String × InstanceData)
deriving DecidableEq

/-- Embedding of `AlertConsolidationEngine._extract_account_violations`
(src/lambda_function.py:3994-4002). -/
def extractAccountViolations (thr : ℚ) (mr : MonitoringResults) : List UtilizationResult :=
  mr.account_results.filter (fun r => decide (thr ≤ r.utilization_percentage))

/-- Embedding of `AlertConsolidationEngine._extract_instance_violations`
(src/lambda_function.py:4004-4012). -/
def extractInstanceViolations (thr : ℚ) (d : InstanceData) : List UtilizationResult :=
  d.results.filter (fun r => decide (thr ≤ r.utilization_percentage))

/-- The consolidated alert payload assembled by `_send_account_level_alert`
and `_send_instance_consolidated_alert` (timestamps, execution id and the
rendered human message abstracted). -/
structure ConsolidatedAlert where
  alert_type : String
  severity : String
  scope : String
  instance_id : Option String
  violations_count : ℕ
  violations : List UtilizationResult
deriving DecidableEq

/-- The account-level pass of `process_monitoring_results`
(src/lambda_function.py:3959-3969 with `_send_account_level_alert`,
4014-4040): one consolidated account alert when the account partition has
violations, none otherwise. -/
def accountAlertBlock (thr : ℚ) (mr : MonitoringResults) : List ConsolidatedAlert :=
  let accountViolations := extractAccountViolations thr mr
  if accountViolations.isEmpty then []
  else
    [{ alert_type := "CONNECT_ACCOUNT_QUOTA_VIOLATIONS"
       severity := determineSeverity accountViolations
       scope := "ACCOUNT"
       instance_id := none
       violations_count := accountViolations.length
       violations := accountViolations }]

/-- The per-instance body of the loop of `process_monitoring_results`
(src/lambda_function.py:3971-3983 with `_send_instance_consolidated_alert`,
4042-4072): one consolidated alert for the instance when its partition has
violations, none otherwise. -/
def instanceAlertBlock (thr : ℚ) (p : String × InstanceData) : List ConsolidatedAlert :=
  let violations := extractInstanceViolations thr p.2
  if violations.isEmpty then []
  else
    [{ alert_type := "CONNECT_INSTANCE_QUOTA_VIOLATIONS"
       severity := determineSeverity violations
       scope := "INSTANCE"
       instance_id := some p.1
       violations_count := violations.length
       violations := violations }]

/-- Embedding of `AlertConsolidationEngine.process_monitoring_results`
(src/lambda_function.py:3940-3992) as the list of consolidated alerts it
assembles and hands to the notification sink: the account pass followed by
one pass per instance block.  Delivery success bookkeeping (`alerts_sent`)
is not part of the consolidation logic modelled here. -/
def processMonitoringResults (thr : ℚ) (mr : MonitoringResults) : List ConsolidatedAlert :=
  accountAlertBlock thr mr ++ mr.instance_results.flatMap (instanceAlertBlock thr)

/-- The 90 entries of `ENHANCED_CONNECT_QUOTA_METRICS`
(src/lambda_function.py:146-1052), projected to the two fields the scope
partition concerns: the quota code (the dictionary key) and its `scope`
field.  Order is the source dictionary's insertion order. -/
def enhancedConnectQuotaMetricsScopes : List (String × String) := [
  ("L-22922690", "ACCOUNT"),
  ("L-48C6B3F1", "ACCOUNT"),
  ("L-A2B3C4D5", "ACCOUNT"),
  ("L-CE1CB913", "INSTANCE"),
  ("L-0B825C74", "INSTANCE"),
  ("L-5243FFAF", "INSTANCE"),
  ("L-B1C2D3E4", "INSTANCE"),
  ("L-B764748E", "INSTANCE"),
  ("L-5E3B1C3D", "INSTANCE"),
  ("L-C5D6E7F8", "INSTANCE"),
  ("L-D7E8F9G0", "INSTANCE"),
  ("L-D4B511E9", "INSTANCE"),
  ("L-E9F0G1H2", "INSTANCE"),
  ("L-F1G2H3I4", "INSTANCE"),
  ("L-F7D9D426", "INSTANCE"),
  ("L-5E34B00F", "INSTANCE"),
  ("L-G3H4I5J6", "INSTANCE"),
  ("L-H5I6J7K8", "INSTANCE"),
  ("L-I7J8K9L0", "INSTANCE"),
  ("L-J9K0L1M2", "INSTANCE"),
  ("L-K1L2M3N4", "INSTANCE"),
  ("L-L3M4N5O6", "INSTANCE"),
  ("L-M5N6O7P8", "INSTANCE"),
  ("L-N7O8P9Q0", "INSTANCE"),
  ("L-3E847AB3", "INSTANCE"),
  ("L-O9P0Q1R2", "INSTANCE"),
  ("L-D77A0D2A", "INSTANCE"),
  ("L-5BDCD1F1", "INSTANCE"),
  ("L-0E4BD33B", "INSTANCE"),
  ("L-P1Q2R3S4", "INSTANCE"),
  ("L-Q3R4S5T6", "INSTANCE"),
  ("L-R5S6T7U8", "INSTANCE"),
  ("L-S7T8U9V0", "INSTANCE"),
  ("L-T9U0V1W2", "INSTANCE"),
  ("L-U1V2W3X4", "INSTANCE"),
  ("L-V3W4X5Y6", "INSTANCE"),
  ("L-W5X6Y7Z8", "INSTANCE"),
  ("L-X7Y8Z9A0", "INSTANCE"),
  ("L-Y9Z0A1B2", "INSTANCE"),
  ("L-Z1A2B3C4", "INSTANCE"),
  ("L-A3B4C5D6", "INSTANCE"),
  ("L-C7F2E7AB", "INSTANCE"),
  ("L-D94C4BF0", "INSTANCE"),
  ("L-B5C6D7E8", "INSTANCE"),
  ("L-F6B3D5D2", "ACCOUNT"),
  ("L-C7D8E9F0", "ACCOUNT"),
  ("L-D9E0F1G2", "ACCOUNT"),
  ("L-E1F2G3H4", "ACCOUNT"),
  ("L-F3G4H5I6", "ACCOUNT"),
  ("L-G5H6I7J8", "ACCOUNT"),
  ("L-BD0F46E9", "ACCOUNT"),
  ("L-H7I8J9K0", "ACCOUNT"),
  ("L-A2D8DC6A", "ACCOUNT"),
  ("L-I9J0K1L2", "ACCOUNT"),
  ("L-J1K2L3M4", "ACCOUNT"),
  ("L-K3L4M5N6", "ACCOUNT"),
  ("L-L5M6N7O8", "ACCOUNT"),
  ("L-F6E5F386", "ACCOUNT"),
  ("L-M7N8O9P0", "ACCOUNT"),
  ("L-N9O0P1Q2", "ACCOUNT"),
  ("L-0437DC6A", "ACCOUNT"),
  ("L-4AA0D667", "ACCOUNT"),
  ("L-O1P2Q3R4", "ACCOUNT"),
  ("L-P3Q4R5S6", "ACCOUNT"),
  ("L-Q5R6S7T8", "ACCOUNT"),
  ("L-R7S8T9U0", "ACCOUNT"),
  ("L-S9T0U1V2", "ACCOUNT"),
  ("L-T1U2V3W4", "ACCOUNT"),
  ("L-9B8870E3", "ACCOUNT"),
  ("L-U3V4W5X6", "ACCOUNT"),
  ("L-V5W6X7Y8", "ACCOUNT"),
  ("L-W7X8Y9Z0", "ACCOUNT"),
  ("L-X9Y0Z1A2", "ACCOUNT"),
  ("L-Y1Z2A3B4", "ACCOUNT"),
  ("L-B2C17E4F", "INSTANCE"),
  ("L-Z3A4B5C6", "INSTANCE"),
  ("L-A5B6C7D8", "INSTANCE"),
  ("L-B7C8D9E0", "INSTANCE"),
  ("L-C9D0E1F2", "INSTANCE"),
  ("L-D1E2F3G4", "INSTANCE"),
  ("L-E3F4G5H6", "INSTANCE"),
  ("L-F5G6H7I8", "INSTANCE"),
  ("L-G7H8I9J0", "INSTANCE"),
  ("L-E8F843D1", "ACCOUNT"),
  ("L-H9I0J1K2", "ACCOUNT"),
  ("L-I1J2K3L4", "ACCOUNT"),
  ("L-J3K4L5M6", "ACCOUNT"),
  ("L-K5L6M7N8", "ACCOUNT"),
  ("L-L7M8N9O0", "INSTANCE"),
  ("L-M9N0O1P2", "INSTANCE")
]

/-- Embedding of `get_quotas_by_scope` (src/lambda_function.py:1087-1096),
on the projected catalog. -/
def getQuotasByScope (scope : Option String) : List (String × String) :=
  match scope with
  | none => enhancedConnectQuotaMetricsScopes
  | some s => enhancedConnectQuotaMetricsScopes.filter (fun q => decide (q.2 = s))

/-- Embedding of `get_account_level_quotas` (src/lambda_function.py:1098-1100). -/
def getAccountLevelQuotas : List (String × String) := getQuotasByScope (some "ACCOUNT")

/-- Embedding of `get_instance_level_quotas` (src/lambda_function.py:1102-1104). -/
def getInstanceLevelQuotas : List (String × String) := getQuotasByScope (some "INSTANCE")

/-- A remote world in which every call fails (every response is `none`). -/
def envNoRemote : Env :=
  { cwResponse := none, cwApiResponse := none, sqResponse := none,
    pages := fun _ => none, instancePages := fun _ => none, hierarchy := none,
    parentPages := fun _ => none, childPages := fun _ _ => none }

/-- Concrete parent listing page for the C9 witness: two parents carrying the
join key and one parent missing it. -/
def c9ParentPage : Page ParentRes :=
  { items := [⟨some "hop-a"⟩, ⟨some "hop-b"⟩, ⟨none⟩], nextToken := false }

/-- Concrete remote world for the C9 witness: one parent page, child listings
of 3 items for hop-a and 5 items for hop-b. -/
def c9Env : Env :=
  { envNoRemote with
    parentPages := fun i => if i = 0 then some c9ParentPage else none,
    childPages := fun pid i =>
      if i = 0 then
        (if pid = "hop-a" then some { items := [(), (), ()], nextToken := false }
         else if pid = "hop-b" then some { items := [(), (), (), (), ()], nextToken := false }
         else none)
      else none }

/-- Concrete nested-count configuration for the C9 witness. -/
def c9Cfg : MetricConfig :=
  { name := some "Phone numbers per hours of operation", scope := some "INSTANCE",
    method := some "api_count_multi", service := some "connect",
    api := some "list_phone_numbers", parent_service := some "connect",
    parent_api := some "list_hours_of_operations", parent_key := some "HoursOfOperationId" }

/-- Concrete rate-limit configuration for the C3 counterexample: a
cloudwatch_api quota with declared limit 1000. -/
def c3Cfg : MetricConfig :=
  { name := some "Rate of StartOutboundVoiceContact API requests",
    category := some "API_RATE_LIMITS", scope := some "INSTANCE",
    method := some "cloudwatch_api", service := some "connect",
    default_limit := some 1000, operationKey := some "StartOutboundVoiceContact" }

/-- Concrete remote world for the C3 counterexample: 600 observed calls in
the 5-minute window. -/
def c3Env : Env := { envNoRemote with cwApiResponse := some ⟨[⟨0, some 600⟩]⟩ }

/-- The result the code produces on the C3 counterexample input. -/
def c3Result : UtilizationResult :=
  { quota_code := "QC3", quota_name := "Rate of StartOutboundVoiceContact API requests",
    category := "API_RATE_LIMITS", scope := "INSTANCE", current_usage := 2,
    quota_limit := 1000, utilization_percentage := 1 / 5,
    instance_id := some "inst-1", method := "cloudwatch_api", service := "connect" }

/-- A violation record at 96 percent utilization for the C5 witness. -/
def c5V96 : UtilizationResult :=
  { quota_code := "QA", quota_name := "Quota A", category := "CORE_CONNECT",
    scope := "INSTANCE", current_usage := 96, quota_limit := 100,
    utilization_percentage := 96, instance_id := some "inst-1",
    method := "api_count", service := "connect" }

/-- A violation record at 82 percent utilization for the C5 witness. -/
def c5V82 : UtilizationResult :=
  { c5V96 with
    quota_code := "QB", quota_name := "Quota B",
    current_usage := 82, utilization_percentage := 82 }

/-- An account-scoped configuration for the C6 witness. -/
def c6Cfg : MetricConfig :=
  { name := some "Amazon Connect instances per account", category := some "CORE_CONNECT",
    scope := some "ACCOUNT", method := some "api_count", service := some "connect",
    default_limit := some 100, api := some "list_instances" }

/-- Concrete sampled-metric configuration for C1: declared limit 3. -/
def c1Cfg : MetricConfig :=
  { name := some "Concurrent calls", category := some "CONTACT_HANDLING",
    scope := some "ACCOUNT", method := some "cloudwatch", service := some "connect",
    default_limit := some 3, metric_name := some "ConcurrentCallsLimit" }

/-- Concrete remote world for C1: one datapoint of value 1. -/
def c1Env : Env := { envNoRemote with cwResponse := some ⟨[⟨0, some 1⟩]⟩ }

/-- The result the code produces on the C1 input: usage 1 of limit 3, with
the stored percentage 33.33 rather than the exact 100/3. -/
def c1Result : UtilizationResult :=
  { quota_code := "QC1", quota_name := "Concurrent calls", category := "CONTACT_HANDLING",
    scope := "ACCOUNT", current_usage := 1, quota_limit := 3,
    utilization_percentage := 3333 / 100, instance_id := none,
    method := "cloudwatch", service := "connect" }

/-- Concrete cloudwatch-method configuration for the C7 counterexample. -/
def c7Cfg : MetricConfig :=
  { name := some "Queues per instance", category := some "ROUTING_QUEUES",
    scope := some "INSTANCE", method := some "cloudwatch", service := some "connect",
    default_limit := some 100, metric_name := some "QueueCount" }

/-- The result the code fabricates for C7 when the metric call fails. -/
def c7Result : UtilizationResult :=
  { quota_code := "QC7", quota_name := "Queues per instance", category := "ROUTING_QUEUES",
    scope := "INSTANCE", current_usage := 0, quota_limit := 100,
    utilization_percentage := 0, instance_id := some "inst-1",
    method := "cloudwatch", service := "connect" }

/-- Concrete service_quotas-method configuration for the C7 witness. -/
def c7SqCfg : MetricConfig :=
  { name := some "Concurrent active calls", category := some "CONTACT_HANDLING",
    scope := some "INSTANCE", method := some "service_quotas", service := some "connect",
    default_limit := some 100 }

/-- A non-violating result at 10 percent for the C4 witness. -/
def c4V10 : UtilizationResult :=
  { c5V96 with
    quota_code := "QD", quota_name := "Quota D",
    current_usage := 10, utilization_percentage := 10 }

/-- Monitoring summary for the C4 witness: instance inst-a with two
violations (82 and 96 percent), instance inst-b with none, and no
account-level results. -/
def c4Mr : MonitoringResults :=
  { account_results := [],
    instance_results := [("inst-a", ⟨"prod-a", [c5V82, c5V96]⟩),
      ("inst-b", ⟨"prod-b", [c4V10]⟩)] }

/-! Helper lemmas (shared, not tied to a single claim). -/

lemma filter_partition_length {α : Type} (p q : α → Bool) :
    ∀ l : List α, (∀ x ∈ l, p x = true ∨ q x = true) →
      (∀ x ∈ l, ¬(p x = true ∧ q x = true)) →
      (l.filter p).length + (l.filter q).length = l.length := by
  intro l
  induction l with
  | nil => intro _ _; simp
  | cons a t ih =>
    intro hall hdis
    have ha := hall a (by simp)
    have hd := hdis a (by simp)
    have ht := ih (fun x hx => hall x (by simp [hx])) (fun x hx => hdis x (by simp [hx]))
    rcases ha with hpa | hqa
    · have hqa : q a = false := by
        rcases hq : q a with _ | _
        · rfl
        · exact absurd ⟨hpa, hq⟩ hd
      simp [List.filter_cons, hpa, hqa]
      omega
    · have hpa : p a = false := by
        rcases hp : p a with _ | _
        · rfl
        · exact absurd ⟨hp, hqa⟩ hd
      simp [List.filter_cons, hpa, hqa]
      omega

/-- C10: every entry of the loaded quota catalog has scope exactly ACCOUNT or
INSTANCE, the quota codes are pairwise distinct, each catalog entry lies in
exactly one of the account-level and instance-level selections, the two
selection sizes add up to the whole catalog, and membership in the union of
the two selections coincides with membership in the catalog — so every quota
is dispatched under exactly one evaluation path per cycle. -/
theorem catalogScopePartition :
    (∀ q ∈ enhancedConnectQuotaMetricsScopes, q.2 = "ACCOUNT" ∨ q.2 = "INSTANCE")
    ∧ (enhancedConnectQuotaMetricsScopes.map Prod.fst).Nodup
    ∧ (∀ q ∈ enhancedConnectQuotaMetricsScopes,
        (q ∈ getAccountLevelQuotas ∧ q ∉ getInstanceLevelQuotas)
        ∨ (q ∈ getInstanceLevelQuotas ∧ q ∉ getAccountLevelQuotas))
    ∧ getAccountLevelQuotas.length + getInstanceLevelQuotas.length
        = enhancedConnectQuotaMetricsScopes.length
    ∧ (∀ q : String × String,
        (q ∈ getAccountLevelQuotas ∨ q ∈ getInstanceLevelQuotas)
          ↔ q ∈ enhancedConnectQuotaMetricsScopes) := by
  have hscope : ∀ q ∈ enhancedConnectQuotaMetricsScopes,
      q.2 = "ACCOUNT" ∨ q.2 = "INSTANCE" := by decide
  have hnd : (enhancedConnectQuotaMetricsScopes.map Prod.fst).Nodup := by decide
  have haccmem : ∀ q : String × String,
      q ∈ getAccountLevelQuotas ↔ q ∈ enhancedConnectQuotaMetricsScopes ∧ q.2 = "ACCOUNT" := by
    intro q
    simp [getAccountLevelQuotas, getQuotasByScope, List.mem_filter]
  have hinsmem : ∀ q : String × String,
      q ∈ getInstanceLevelQuotas ↔ q ∈ enhancedConnectQuotaMetricsScopes ∧ q.2 = "INSTANCE" := by
    intro q
    simp [getInstanceLevelQuotas, getQuotasByScope, List.mem_filter]
  refine ⟨hscope, hnd, ?_, ?_, ?_⟩
  · intro q hq
    rcases hscope q hq with h | h
    · refine Or.inl ⟨(haccmem q).2 ⟨hq, h⟩, fun hmem => ?_⟩
      have h2 := ((hinsmem q).1 hmem).2
      rw [h] at h2
      exact absurd h2 (by decide)
    · refine Or.inr ⟨(hinsmem q).2 ⟨hq, h⟩, fun hmem => ?_⟩
      have h2 := ((haccmem q).1 hmem).2
      rw [h] at h2
      exact absurd h2 (by decide)
  · have hlen := filter_partition_length
      (fun q : String × String => decide (q.2 = "ACCOUNT"))
      (fun q : String × String => decide (q.2 = "INSTANCE"))
      enhancedConnectQuotaMetricsScopes
      (by
        intro x hx
        rcases hscope x hx with h | h
        · exact Or.inl (by simp [h])
        · exact Or.inr (by simp [h]))
      (by
        intro x _ hc
        have h1 : x.2 = "ACCOUNT" := by simpa using hc.1
        have h2 : x.2 = "INSTANCE" := by simpa using hc.2
        rw [h1] at h2
        exact absurd h2 (by decide))
    simpa [getAccountLevelQuotas, getInstanceLevelQuotas, getQuotasByScope] using hlen
  · intro q
    constructor
    · intro h
      rcases h with h | h
      · exact ((haccmem q).1 h).1
      · exact ((hinsmem q).1 h).1
    · intro hq
      rcases hscope q hq with h | h
      · exact Or.inl ((haccmem q).2 ⟨hq, h⟩)
      · exact Or.inr ((hinsmem q).2 ⟨hq, h⟩)

lemma countPagesFrom_all {α : Type} (pages : ℕ → Option (Page α)) (p : ℕ → Page α)
    (hp : ∀ i, pages i = some (p i)) (hn : ∀ i, (p i).nextToken = true) :
    ∀ fuel idx, countPagesFrom pages fuel idx
      = ∑ j ∈ Finset.range fuel, (p (idx + j)).items.length := by
  intro fuel
  induction fuel with
  | zero => intro idx; simp [countPagesFrom]
  | succ f ih =>
    intro idx
    rw [countPagesFrom, hp idx]
    simp only [hn idx, if_true]
    rw [ih (idx + 1), Finset.sum_range_succ']
    have hshift : ∀ j, (p (idx + (j + 1))).items.length = (p (idx + 1 + j)).items.length := by
      intro j
      have : idx + (j + 1) = idx + 1 + j := by omega
      rw [this]
    calc (p idx).items.length + ∑ j ∈ Finset.range f, (p (idx + 1 + j)).items.length
        = (∑ j ∈ Finset.range f, (p (idx + (j + 1))).items.length) + (p (idx + 0)).items.length := by
          simp only [hshift, Nat.add_zero]
          omega
      _ = _ := rfl

lemma countPagesFrom_stop {α : Type} (pages : ℕ → Option (Page α)) (p : ℕ → Page α) :
    ∀ k fuel idx, k < fuel →
      (∀ i, i ≤ k → pages (idx + i) = some (p (idx + i))) →
      (∀ i, i < k → (p (idx + i)).nextToken = true) →
      (p (idx + k)).nextToken = false →
      countPagesFrom pages fuel idx
        = ∑ j ∈ Finset.range (k + 1), (p (idx + j)).items.length := by
  intro k
  induction k with
  | zero =>
    intro fuel idx hk hp _ hstop
    obtain ⟨f, rfl⟩ : ∃ f, fuel = f + 1 := ⟨fuel - 1, by omega⟩
    have h0 := hp 0 (by omega)
    rw [Nat.add_zero] at h0 hstop
    rw [countPagesFrom, h0]
    simp [hstop]
  | succ m ih =>
    intro fuel idx hk hp hn hstop
    obtain ⟨f, rfl⟩ : ∃ f, fuel = f + 1 := ⟨fuel - 1, by omega⟩
    have h0 := hp 0 (by omega)
    have hn0 : (p (idx + 0)).nextToken = true := hn 0 (by omega)
    rw [Nat.add_zero] at h0 hn0
    rw [countPagesFrom, h0]
    simp only [hn0, if_true]
    have hrec := ih f (idx + 1) (by omega)
      (by
        intro i hi
        have := hp (i + 1) (by omega)
        have heq : idx + (i + 1) = idx + 1 + i := by omega
        rw [heq] at this
        exact this)
      (by
        intro i hi
        have := hn (i + 1) (by omega)
        have heq : idx + (i + 1) = idx + 1 + i := by omega
        rw [heq] at this
        exact this)
      (by
        have heq : idx + (m + 1) = idx + 1 + m := by omega
        rw [heq] at hstop
        exact hstop)
    rw [hrec]
    conv_rhs => rw [Finset.sum_range_succ']
    have hshift : ∀ j, (p (idx + (j + 1))).items.length = (p (idx + 1 + j)).items.length := by
      intro j
      have : idx + (j + 1) = idx + 1 + j := by omega
      rw [this]
    simp only [hshift, Nat.add_zero]
    omega

lemma collectPagesFrom_all {α : Type} (pages : ℕ → Option (Page α)) (p : ℕ → Page α)
    (hp : ∀ i, pages i = some (p i)) (hn : ∀ i, (p i).nextToken = true) :
    ∀ fuel idx, collectPagesFrom pages fuel idx
      = (List.range fuel).flatMap (fun j => (p (idx + j)).items) := by
  intro fuel
  induction fuel with
  | zero => intro idx; simp [collectPagesFrom]
  | succ f ih =>
    intro idx
    rw [collectPagesFrom, hp idx]
    simp only [hn idx, if_true]
    rw [ih (idx + 1), List.range_succ_eq_map, List.flatMap_cons, List.flatMap_map]
    simp only [Nat.add_zero]
    have harg : (fun j => (p (idx + 1 + j)).items) = fun a => (p (idx + a.succ)).items := by
      funext j
      have hj : idx + 1 + j = idx + j.succ := by omega
      rw [hj]
    rw [harg]

/-- C8: the pagination loops always terminate at the page ceiling of 100
pages: when every listing call answers and always carries a continuation
cursor, the counting run returns (not fails with) the count accumulated over
exactly the first 100 pages, and the collection run returns the items of
exactly the first 100 pages; when the cursor becomes absent at page k before
the ceiling, the count accumulated over pages 0..k is returned.  (The source
logs a warning when `page_count` reaches the ceiling and falls through to the
normal return of the partial total.) -/
theorem paginationCeilingAndTermination :
    (∀ (pages : ℕ → Option (Page Unit)) (p : ℕ → Page Unit),
      (∀ i, pages i = some (p i)) → (∀ i, (p i).nextToken = true) →
      countViaPaginationEnhanced pages = ∑ j ∈ Finset.range maxPages, (p j).items.length)
    ∧ (∀ (pages : ℕ → Option (Page Unit)) (p : ℕ → Page Unit) (k : ℕ), k < maxPages →
      (∀ i, i ≤ k → pages i = some (p i)) → (∀ i, i < k → (p i).nextToken = true) →
      (p k).nextToken = false →
      countViaPaginationEnhanced pages = ∑ j ∈ Finset.range (k + 1), (p j).items.length)
    ∧ (∀ (pages : ℕ → Option (Page Unit)) (p : ℕ → Page Unit),
      (∀ i, pages i = some (p i)) → (∀ i, (p i).nextToken = true) →
      getAllResources pages = (List.range maxPages).flatMap (fun j => (p j).items)) := by
  refine ⟨?_, ?_, ?_⟩
  · intro pages p hp hn
    have h := countPagesFrom_all pages p hp hn maxPages 0
    simpa [countViaPaginationEnhanced] using h
  · intro pages p k hk hp hn hstop
    have h := countPagesFrom_stop pages p k maxPages 0 hk
      (by intro i hi; simpa using hp i hi)
      (by intro i hi; simpa using hn i hi)
      (by simpa using hstop)
    simpa [countViaPaginationEnhanced] using h
  · intro pages p hp hn
    have h := collectPagesFrom_all pages p hp hn maxPages 0
    simpa [getAllResources] using h

/-- Witness for C8: a run over endlessly continuing pages of two items each
stops at the 100-page ceiling with the partial count 200. -/
theorem paginationCeilingWitness :
    countViaPaginationEnhanced (fun _ : ℕ => some (⟨[(), ()], true⟩ : Page Unit)) = 200 := by
  have h := paginationCeilingAndTermination.1
    (fun _ : ℕ => some (⟨[(), ()], true⟩ : Page Unit))
    (fun _ : ℕ => (⟨[(), ()], true⟩ : Page Unit))
    (fun _ => rfl) (fun _ => rfl)
  rw [h]
  simp [maxPages]

/-- The per-parent join-key guard of `_monitor_via_api_count_multi`: the
truthy value stored under the configured join key, `none` when the parent is
skipped (`if not parent_id: continue`). -/
def truthyJoinKey (pr : ParentRes) : Option String :=
  match pr.joinKeyValue with
  | none => none
  | some pid => if pid.isEmpty then none else some pid

lemma parentFold_sum (f : String → ℕ) :
    ∀ (l : List ParentRes) (acc : ℕ),
      l.foldl (fun total pr =>
        match pr.joinKeyValue with
        | none => total
        | some pid => if pid.isEmpty then total else total + f pid) acc
      = acc + ((l.filterMap truthyJoinKey).map f).sum := by
  intro l
  induction l with
  | nil => intro acc; simp
  | cons a t ih =>
    intro acc
    cases ha : a.joinKeyValue with
    | none => simp [List.foldl_cons, ha, List.filterMap_cons, truthyJoinKey, ih]
    | some pid =>
      by_cases hp : pid.isEmpty
      · simp only [List.foldl_cons, ha, hp, if_true, List.filterMap_cons, truthyJoinKey]
        rw [ih]
      · simp only [List.foldl_cons, ha, hp, if_false, List.filterMap_cons, truthyJoinKey]
        rw [ih]
        simp
        omega

/-- C9: for a fully configured nested count, the resolver enumerates all
parent items, issues one child count per parent whose join-key entry is
present (and truthy), and returns the sum of those child counts; a parent
with a missing join-key entry is skipped and contributes nothing, and the
count is not aborted. -/
theorem nestedCountSumsChildren :
    ∀ (cfg : MetricConfig) (env : Env) (service apiName pService pApi pKey rKey : String),
      cfg.service = some service → cfg.api = some apiName →
      cfg.parent_service = some pService → cfg.parent_api = some pApi →
      cfg.parent_key = some pKey →
      service.isEmpty = false → apiName.isEmpty = false → pService.isEmpty = false →
      pApi.isEmpty = false → pKey.isEmpty = false →
      getResponseKey pService pApi = some rKey →
      monitorViaApiCountMulti cfg env
        = some ((((getAllResources env.parentPages).filterMap truthyJoinKey).map
            (fun pid => countViaPaginationEnhanced (env.childPages pid))).sum) := by
  intro cfg env service apiName pService pApi pKey rKey hs ha hps hpa hpk es ea eps epa epk hr
  unfold monitorViaApiCountMulti
  rw [hs, ha, hps, hpa, hpk]
  simp only [es, ea, eps, epa, epk, hr, Bool.false_eq_true, or_self, if_false]
  by_cases hemp : (getAllResources env.parentPages).isEmpty
  · have hnil : getAllResources env.parentPages = [] := by simpa using hemp
    simp [hemp, hnil]
  · simp only [hemp, Bool.false_eq_true, if_false]
    rw [parentFold_sum]
    simp

/-- Witness for C9: two parents with child counts 3 and 5 plus one parent
missing the join key yield the nested count 8. -/
theorem nestedCountWitness : monitorViaApiCountMulti c9Cfg c9Env = some 8 := by
  have h := nestedCountSumsChildren c9Cfg c9Env "connect" "list_phone_numbers" "connect"
    "list_hours_of_operations" "HoursOfOperationId" "HoursOfOperationSummaryList"
    rfl rfl rfl rfl rfl rfl rfl rfl rfl rfl rfl
  rw [h]
  rfl

lemma pytrunc_intCast (z : ℤ) : pytrunc (z : ℚ) = z := by
  unfold pytrunc
  split
  · exact Int.ceil_intCast z
  · exact Int.floor_intCast z

lemma latestDatapoint_spec :
    ∀ l : List Datapoint, l ≠ [] →
      ∃ d, latestDatapoint l = some d ∧ d ∈ l ∧ ∀ e ∈ l, e.timestamp ≤ d.timestamp := by
  intro l
  induction l with
  | nil => intro h; exact absurd rfl h
  | cons a t ih =>
    intro _
    cases t with
    | nil =>
      refine ⟨a, ?_, by simp, by simp⟩
      simp [latestDatapoint]
    | cons b t2 =>
      obtain ⟨d, hd, hmem, hmax⟩ := ih (by simp)
      by_cases hlt : a.timestamp < d.timestamp
      · refine ⟨d, ?_, by simp [hmem], ?_⟩
        · rw [latestDatapoint, hd]
          simp [hlt]
        · intro e he
          rcases List.mem_cons.mp he with rfl | he2
          · exact Nat.le_of_lt hlt
          · exact hmax e he2
      · refine ⟨a, ?_, by simp, ?_⟩
        · rw [latestDatapoint, hd]
          simp [hlt]
        · intro e he
          rcases List.mem_cons.mp he with rfl | he2
          · exact Nat.le_refl _
          · exact Nat.le_trans (hmax e he2) (Nat.le_of_not_lt hlt)

/-- C2 (amended): the SampledMetric resolver does not aggregate over the
returned series; it returns the declared statistic's value carried by the
most recent datapoint (first of maximal timestamp), truncated by `int()`,
and when the metric source returns no data points — or the call fails — the
measured usage is 0, not an error. -/
theorem sampledMetricLatestPoint :
    ∀ (m : String) (r : CWResponse),
      (monitorViaCloudwatch (some m) none = some 0)
      ∧ (r.datapoints = [] → monitorViaCloudwatch (some m) (some r) = some 0)
      ∧ (r.datapoints ≠ [] → ∃ d ∈ r.datapoints,
          (∀ e ∈ r.datapoints, e.timestamp ≤ d.timestamp)
          ∧ monitorViaCloudwatch (some m) (some r) = some (pytrunc (d.value.getD 0))) := by
  intro m r
  refine ⟨rfl, ?_, ?_⟩
  · intro h
    simp [monitorViaCloudwatch, h]
  · intro h
    obtain ⟨d, hd, hmem, hmax⟩ := latestDatapoint_spec r.datapoints h
    refine ⟨d, hmem, hmax, ?_⟩
    have hne : r.datapoints.isEmpty = false := by simpa using h
    simp [monitorViaCloudwatch, hne, hd]

/-- Witness for C2: a single datapoint of value 7 yields the measured usage 7. -/
theorem sampledMetricLatestPointWitness :
    monitorViaCloudwatch (some "ConcurrentCalls") (some ⟨[⟨5, some 7⟩]⟩) = some 7 := by
  obtain ⟨d, hmem, hmax, heq⟩ :=
    (sampledMetricLatestPoint "ConcurrentCalls" ⟨[⟨5, some 7⟩]⟩).2.2 (by simp)
  have hd : d = ⟨5, some 7⟩ := by simpa using hmem
  rw [heq, hd]
  norm_num [pytrunc]

/-- Counterexample for C2 as stated: for the two-point series (t=0, value 10),
(t=1, value 5) under statistic Maximum, the claimed reduction is the maximum
10 over all points, but the code returns 5, the value of the latest
datapoint. -/
theorem sampledMetricReduceCounterexample :
    monitorViaCloudwatch (some "ConcurrentActiveCalls")
        (some ⟨[⟨0, some 10⟩, ⟨1, some 5⟩]⟩) = some 5
    ∧ claimStatisticReduce "Maximum" [10, 5] = 10
    ∧ (5 : ℤ) ≠ 10 := by
  refine ⟨?_, ?_, by decide⟩
  · simp only [monitorViaCloudwatch, latestDatapoint]
    norm_num [pytrunc]
  · simp only [claimStatisticReduce, maxUtil, if_true, List.foldl_cons, List.foldl_nil]
    norm_num [max_def]

/-- C3 (amended): the cloudwatch_api resolver does not estimate usage as a
fixed fraction of the declared limit; it measures the observed call rate: on
a failed call or an empty series the usage is 0, and on a non-empty series of
non-negative per-minute call counts it returns the integer part z of (window
total) / (300 seconds), characterized by 300 z ≤ total < 300 (z + 1). -/
theorem rateObservedNotBucketed :
    ∀ (op : String) (r : CWResponse),
      (monitorViaCloudwatchApi (some op) none = some 0)
      ∧ (r.datapoints = [] → monitorViaCloudwatchApi (some op) (some r) = some 0)
      ∧ ((∀ dp ∈ r.datapoints, 0 ≤ dp.value.getD 0) → r.datapoints ≠ [] →
          ∃ z : ℤ, monitorViaCloudwatchApi (some op) (some r) = some z ∧ 0 ≤ z
            ∧ (z : ℚ) * 300 ≤ (r.datapoints.map (fun dp => dp.value.getD 0)).sum
            ∧ (r.datapoints.map (fun dp => dp.value.getD 0)).sum < ((z : ℚ) + 1) * 300) := by
  intro op r
  refine ⟨rfl, ?_, ?_⟩
  · intro h
    simp [monitorViaCloudwatchApi, h]
  · intro hnn hne
    set total : ℚ := (r.datapoints.map (fun dp => dp.value.getD 0)).sum with htotal
    have htnn : 0 ≤ total := by
      apply List.sum_nonneg
      intro x hx
      obtain ⟨dp, hdp, rfl⟩ := List.mem_map.mp hx
      exact hnn dp hdp
    have hdivnn : 0 ≤ total / 300 := by positivity
    have hempty : r.datapoints.isEmpty = false := by simpa using hne
    refine ⟨⌊total / 300⌋, ?_, ?_, ?_, ?_⟩
    · simp only [monitorViaCloudwatchApi, hempty, Bool.false_eq_true, if_false]
      have : pytrunc (total / 300) = ⌊total / 300⌋ := by
        unfold pytrunc
        rw [if_neg (not_lt.mpr hdivnn)]
      rw [← htotal, this]
    · exact Int.le_floor.mpr (by exact_mod_cast hdivnn)
    · have hle : (⌊total / 300⌋ : ℚ) ≤ total / 300 := Int.floor_le _
      calc (⌊total / 300⌋ : ℚ) * 300 ≤ total / 300 * 300 := by nlinarith
        _ = total := by field_simp
    · have hlt : total / 300 < (⌊total / 300⌋ : ℚ) + 1 := Int.lt_floor_add_one _
      have h300 : (0 : ℚ) < 300 := by norm_num
      calc total = total / 300 * 300 := by field_simp
        _ < ((⌊total / 300⌋ : ℚ) + 1) * 300 := by nlinarith

/-- Witness for C3: five one-minute buckets of 60 calls each (300 calls in
the 5-minute window) yield the measured rate 1 call per second. -/
theorem rateObservedWitness :
    monitorViaCloudwatchApi (some "StartOutboundVoiceContact")
      (some ⟨[⟨0, some 60⟩, ⟨1, some 60⟩, ⟨2, some 60⟩, ⟨3, some 60⟩, ⟨4, some 60⟩]⟩)
      = some 1 := by
  obtain ⟨z, hz, hznn, hlo, hhi⟩ :=
    (rateObservedNotBucketed "StartOutboundVoiceContact"
        ⟨[⟨0, some 60⟩, ⟨1, some 60⟩, ⟨2, some 60⟩, ⟨3, some 60⟩, ⟨4, some 60⟩]⟩).2.2
      (by intro dp hdp; fin_cases hdp <;> norm_num)
      (by simp)
  have hsum : (([⟨0, some 60⟩, ⟨1, some 60⟩, ⟨2, some 60⟩, ⟨3, some 60⟩,
      ⟨4, some 60⟩] : List Datapoint).map (fun dp => dp.value.getD 0)).sum = (300 : ℚ) := by
    norm_num
  rw [hsum] at hlo hhi
  have hz1 : z = 1 := by
    have h1 : (z : ℚ) ≤ 1 := by nlinarith
    have h2 : (1 : ℚ) < (z : ℚ) + 1 := by nlinarith
    have hz1' : z ≤ 1 := by exact_mod_cast h1
    have hz0' : (1 : ℤ) < z + 1 := by exact_mod_cast h2
    omega
  rw [hz, hz1]

/-- Counterexample for C3 as stated: with 600 observed calls in the window
and a declared limit of 1000 the code reports the measured usage 2, which is
not (even approximately) any of the claimed fixed fractions 90 percent (900),
50 percent (500) or 10 percent (100) of the limit. -/
theorem rateEstimateBucketsCounterexample :
    (processQuotaConfig (some "inst-1") c3Cfg (some "QC3") c3Env).1 = some c3Result
    ∧ c3Result.current_usage = 2 ∧ c3Result.quota_limit = 1000
    ∧ c3Result.current_usage ≠ (9 / 10) * c3Result.quota_limit
    ∧ c3Result.current_usage ≠ (1 / 2) * c3Result.quota_limit
    ∧ c3Result.current_usage ≠ (1 / 10) * c3Result.quota_limit
    ∧ |c3Result.current_usage - (1 / 10) * c3Result.quota_limit| > 50 := by
  refine ⟨?_, by norm_num [c3Result], by norm_num [c3Result], by norm_num [c3Result],
    by norm_num [c3Result], by norm_num [c3Result], by norm_num [c3Result]⟩
  have hmon : monitorViaCloudwatchApi (some "StartOutboundVoiceContact")
      (some ⟨[⟨0, some 600⟩]⟩) = some 2 := by
    simp only [monitorViaCloudwatchApi]
    norm_num [pytrunc]
  simp +decide [processQuotaConfig, c3Cfg, c3Env, envNoRemote, hmon, mkUtilizationResult,
    pyOr, pyTruthy, c3Result, UtilizationResult.mk.injEq]
  norm_num [round2, round_eq]

lemma memberSeverity_rank_mono {a b : ℚ} (h : a ≤ b) :
    sevRank (memberSeverity a) ≤ sevRank (memberSeverity b) := by
  unfold memberSeverity
  split_ifs <;> first | decide | (exfalso; linarith)

lemma memberSeverity_eq_of_rank {a b : ℚ}
    (h : sevRank (memberSeverity a) = sevRank (memberSeverity b)) :
    memberSeverity a = memberSeverity b := by
  unfold memberSeverity at h ⊢
  split_ifs at h ⊢ <;> first | rfl | exact absurd h (by decide)

lemma memberSeverity_max (a b : ℚ) :
    memberSeverity (max a b) = sevMax (memberSeverity a) (memberSeverity b) := by
  unfold sevMax
  rcases le_total a b with h | h
  · rw [max_eq_right h]
    by_cases hlt : sevRank (memberSeverity a) < sevRank (memberSeverity b)
    · rw [if_pos hlt]
    · rw [if_neg hlt]
      exact (memberSeverity_eq_of_rank
        (le_antisymm (memberSeverity_rank_mono h) (not_lt.mp hlt))).symm
  · rw [max_eq_left h]
    by_cases hlt : sevRank (memberSeverity a) < sevRank (memberSeverity b)
    · exact absurd hlt (not_lt.mpr (memberSeverity_rank_mono h))
    · rw [if_neg hlt]

lemma memberSeverity_foldl (us : List ℚ) :
    ∀ u, memberSeverity (us.foldl max u)
      = (us.map memberSeverity).foldl sevMax (memberSeverity u) := by
  induction us with
  | nil => intro u; simp
  | cons x t ih =>
    intro u
    simp only [List.foldl_cons, List.map_cons]
    rw [ih (max u x), memberSeverity_max]

lemma determineSeverity_cons (v : UtilizationResult) (vs : List UtilizationResult) :
    determineSeverity (v :: vs)
      = memberSeverity (maxUtil ((v :: vs).map (fun w => w.utilization_percentage))) := by
  simp only [determineSeverity, List.isEmpty_cons, Bool.false_eq_true, if_false]
  rfl

/-- C5: for every non-empty list of violations, the severity the code assigns
to the consolidated alert equals the maximum of the member severities, where
a member's severity is CRITICAL at a utilization of 95 or above, HIGH at 90,
MEDIUM at 85, and LOW otherwise. -/
theorem consolidatedSeverityIsMaxMember :
    ∀ vs : List UtilizationResult, vs ≠ [] →
      determineSeverity vs
        = maxSeverity (vs.map (fun v => memberSeverity v.utilization_percentage)) := by
  intro vs hne
  match vs with
  | v :: t =>
    rw [determineSeverity_cons v t]
    simp only [List.map_cons, maxUtil, maxSeverity]
    rw [memberSeverity_foldl, List.map_map]
    rfl

/-- Witness for C5: members at 96 percent (CRITICAL) and 82 percent (LOW)
consolidate to a CRITICAL alert. -/
theorem consolidatedSeverityWitness :
    determineSeverity [c5V96, c5V82] = "CRITICAL" := by
  rw [consolidatedSeverityIsMaxMember [c5V96, c5V82] (by simp)]
  simp only [List.map_cons, List.map_nil, c5V96, c5V82]
  have h96 : memberSeverity 96 = "CRITICAL" := by norm_num [memberSeverity]
  have h82 : memberSeverity 82 = "LOW" := by norm_num [memberSeverity]
  rw [h96, h82]
  decide

/-- C6: scope/context mismatches are skipped, never coerced into a
measurement: an account-scoped quota invoked with a (non-empty) resource
context resolves to no result, and an instance-scoped quota — including the
default scope when the field is absent — invoked with a null context
resolves to no result; in both cases no service-health event is recorded. -/
theorem scopeMismatchSkipped :
    ∀ (cfg : MetricConfig) (quotaCode : Option String) (env : Env),
      (∀ iid : String, cfg.scope = some "ACCOUNT" → iid.isEmpty = false →
        processQuotaConfig (some iid) cfg quotaCode env = (none, []))
      ∧ (cfg.scope.getD "INSTANCE" = "INSTANCE" →
        processQuotaConfig none cfg quotaCode env = (none, [])) := by
  intro cfg quotaCode env
  constructor
  · intro iid hscope hne
    simp [processQuotaConfig, pyTruthy, hscope, hne]
  · intro hscope
    simp [processQuotaConfig, pyTruthy, hscope]

/-- Witness for C6: an account-scoped quota invoked with context inst-1 is
skipped, and an instance-scoped quota invoked with no context is skipped. -/
theorem scopeMismatchWitness :
    processQuotaConfig (some "inst-1") c6Cfg (some "QC6") envNoRemote = (none, [])
    ∧ processQuotaConfig none c9Cfg (some "QC9") envNoRemote = (none, []) := by
  refine ⟨(scopeMismatchSkipped c6Cfg (some "QC6") envNoRemote).1 "inst-1" rfl (by decide),
    (scopeMismatchSkipped c9Cfg (some "QC9") envNoRemote).2 rfl⟩

lemma round2_close (x : ℚ) : |round2 x - x| ≤ 1 / 200 := by
  unfold round2
  have h := abs_sub_round (x * 100)
  have heq : ((round (x * 100) : ℤ) : ℚ) / 100 - x
      = (((round (x * 100) : ℤ) : ℚ) - x * 100) / 100 := by ring
  rw [heq, abs_div]
  have h100 : |(100 : ℚ)| = 100 := by norm_num
  rw [h100, abs_sub_comm]
  linarith

lemma mkUtilizationResult_spec (qc : Option String) (qn cat sc : String) (cu ql : ℚ)
    (iid : Option String) (mn sv : String) :
    ((mkUtilizationResult qc qn cat sc cu ql iid mn sv).quota_limit ≤ 0 →
        (mkUtilizationResult qc qn cat sc cu ql iid mn sv).utilization_percentage = 0)
    ∧ (0 < (mkUtilizationResult qc qn cat sc cu ql iid mn sv).quota_limit →
        (mkUtilizationResult qc qn cat sc cu ql iid mn sv).utilization_percentage
          = round2 ((mkUtilizationResult qc qn cat sc cu ql iid mn sv).current_usage
              / (mkUtilizationResult qc qn cat sc cu ql iid mn sv).quota_limit * 100)
        ∧ |(mkUtilizationResult qc qn cat sc cu ql iid mn sv).utilization_percentage
            - (mkUtilizationResult qc qn cat sc cu ql iid mn sv).current_usage
              / (mkUtilizationResult qc qn cat sc cu ql iid mn sv).quota_limit * 100|
          ≤ 1 / 200) := by
  constructor
  · intro hle
    have hnot : ¬ (0 : ℚ) < ql := not_lt.mpr (by simpa [mkUtilizationResult] using hle)
    simp [mkUtilizationResult, hnot, round2]
  · intro hlt
    have hlt' : (0 : ℚ) < ql := by simpa [mkUtilizationResult] using hlt
    constructor
    · simp [mkUtilizationResult, hlt']
    · have hb := round2_close (cu / ql * 100)
      simpa [mkUtilizationResult, hlt'] using hb

/-- C1 (amended): every result produced by quota resolution stores, when the
limit is not positive, the percentage 0, and otherwise current/limit*100
rounded to two decimal places — hence within 1/200 of the exact value, but
not the exact value itself. -/
theorem utilizationDerivedRounded :
    ∀ (instanceId : Option String) (cfg : MetricConfig) (quotaCode : Option String) (env : Env)
      (r : UtilizationResult),
      (processQuotaConfig instanceId cfg quotaCode env).1 = some r →
      (r.quota_limit ≤ 0 → r.utilization_percentage = 0)
      ∧ (0 < r.quota_limit →
          r.utilization_percentage = round2 (r.current_usage / r.quota_limit * 100)
          ∧ |r.utilization_percentage - r.current_usage / r.quota_limit * 100| ≤ 1 / 200) := by
  intro instanceId cfg quotaCode env r h
  have hmk : ∃ (cu ql : ℚ), r = mkUtilizationResult quotaCode (cfg.name.getD "Unknown Quota")
      (cfg.category.getD "UNKNOWN") (cfg.scope.getD "INSTANCE") cu ql instanceId
      (cfg.method.getD "") (cfg.service.getD "connect") := by
    simp only [processQuotaConfig] at h
    split_ifs at h
    · rcases hx : monitorViaApiCount cfg env with _ | n <;> rw [hx] at h
      · simp at h
      · simp at h
        exact ⟨_, _, h.symm⟩
    · rcases hx : monitorViaApiCountMulti cfg env with _ | n <;> rw [hx] at h
      · simp at h
      · simp at h
        exact ⟨_, _, h.symm⟩
    · rcases hx : monitorViaCloudwatch cfg.metric_name env.cwResponse with _ | z <;>
        rw [hx] at h
      · simp at h
      · simp at h
        exact ⟨_, _, h.symm⟩
    · rcases hx : monitorViaCloudwatchApi cfg.operationKey env.cwApiResponse with _ | z <;>
        rw [hx] at h
      · simp at h
      · simp at h
        exact ⟨_, _, h.symm⟩
    · rcases hx : (monitorViaServiceQuotas (cfg.default_limit.getD 0) quotaCode
          env.sqResponse).1 with _ | z <;> rw [hx] at h
      · simp at h
      · simp at h
        exact ⟨_, _, h.symm⟩
  obtain ⟨cu, ql, rfl⟩ := hmk
  exact mkUtilizationResult_spec quotaCode (cfg.name.getD "Unknown Quota")
    (cfg.category.getD "UNKNOWN") (cfg.scope.getD "INSTANCE") cu ql instanceId
    (cfg.method.getD "") (cfg.service.getD "connect")

lemma c1_resolution_eval :
    (processQuotaConfig none c1Cfg (some "QC1") c1Env).1 = some c1Result := by
  have hmon : monitorViaCloudwatch (some "ConcurrentCallsLimit")
      (some ⟨[⟨0, some 1⟩]⟩) = some 1 := by
    simp only [monitorViaCloudwatch, latestDatapoint]
    norm_num [pytrunc]
  simp +decide [processQuotaConfig, c1Cfg, c1Env, envNoRemote, hmon, mkUtilizationResult,
    pyOr, pyTruthy, c1Result, UtilizationResult.mk.injEq]
  norm_num [round2, round_eq]

/-- Counterexample for C1 as stated: on a result with usage 1 and limit 3 the
stored percentage is 33.33, which differs from the exact 100/3 by exactly
1/300 — far beyond floating tolerance. -/
theorem utilizationExactCounterexample :
    (processQuotaConfig none c1Cfg (some "QC1") c1Env).1 = some c1Result
    ∧ (0 : ℚ) < c1Result.quota_limit
    ∧ c1Result.utilization_percentage ≠ c1Result.current_usage / c1Result.quota_limit * 100
    ∧ |c1Result.utilization_percentage - c1Result.current_usage / c1Result.quota_limit * 100|
        = 1 / 300 := by
  refine ⟨c1_resolution_eval, by norm_num [c1Result], by norm_num [c1Result], ?_⟩
  have hval : c1Result.utilization_percentage
      - c1Result.current_usage / c1Result.quota_limit * 100 = -(1 / 300) := by
    norm_num [c1Result]
  rw [hval, abs_neg, abs_of_pos (by norm_num)]

/-- Witness for C1 (amended): at usage 1 and limit 3 the stored percentage
33.33 equals the two-decimal rounding of 100/3 and lies within 1/200 of it. -/
theorem utilizationDerivedRoundedWitness :
    (0 : ℚ) < 3 ∧ (3333 : ℚ) / 100 = round2 ((1 : ℚ) / 3 * 100)
      ∧ |(3333 : ℚ) / 100 - (1 : ℚ) / 3 * 100| ≤ 1 / 200 := by
  have h := (utilizationDerivedRounded none c1Cfg (some "QC1") c1Env c1Result
    c1_resolution_eval).2 (by norm_num [c1Result])
  refine ⟨by norm_num, ?_, ?_⟩
  · have h1 := h.1
    simpa [c1Result] using h1
  · have h2 := h.2
    simpa [c1Result] using h2

lemma countPagesFrom_fail {α : Type} (pages : ℕ → Option (Page α)) (p : ℕ → Page α) :
    ∀ k fuel idx, k < fuel →
      (∀ i, i < k → pages (idx + i) = some (p (idx + i))) →
      (∀ i, i < k → (p (idx + i)).nextToken = true) →
      pages (idx + k) = none →
      countPagesFrom pages fuel idx
        = ∑ j ∈ Finset.range k, (p (idx + j)).items.length := by
  intro k
  induction k with
  | zero =>
    intro fuel idx hk _ _ hfail
    obtain ⟨f, rfl⟩ : ∃ f, fuel = f + 1 := ⟨fuel - 1, by omega⟩
    rw [Nat.add_zero] at hfail
    rw [countPagesFrom, hfail]
    simp
  | succ m ih =>
    intro fuel idx hk hp hn hfail
    obtain ⟨f, rfl⟩ : ∃ f, fuel = f + 1 := ⟨fuel - 1, by omega⟩
    have h0 := hp 0 (by omega)
    have hn0 : (p (idx + 0)).nextToken = true := hn 0 (by omega)
    rw [Nat.add_zero] at h0 hn0
    rw [countPagesFrom, h0]
    simp only [hn0, if_true]
    have hrec := ih f (idx + 1) (by omega)
      (by
        intro i hi
        have hpi := hp (i + 1) (by omega)
        have heq : idx + (i + 1) = idx + 1 + i := by omega
        rw [heq] at hpi
        exact hpi)
      (by
        intro i hi
        have hni := hn (i + 1) (by omega)
        have heq : idx + (i + 1) = idx + 1 + i := by omega
        rw [heq] at hni
        exact hni)
      (by
        have heq : idx + (m + 1) = idx + 1 + m := by omega
        rw [heq] at hfail
        exact hfail)
    rw [hrec]
    conv_rhs => rw [Finset.sum_range_succ']
    have hshift : ∀ j, (p (idx + (j + 1))).items.length = (p (idx + 1 + j)).items.length := by
      intro j
      have heq : idx + (j + 1) = idx + 1 + j := by omega
      rw [heq]
    simp only [hshift, Nat.add_zero]
    omega

/-- C7 (amended): only the service_quotas strategy turns a failed remote call
into a null resolution with the owning service recorded as degraded; for the
cloudwatch and cloudwatch_api strategies a failed call is treated like absent
data and produces a result with a measured usage of 0, the service left
healthy; the pagination counting loop, when the call for a page fails,
returns the partial count accumulated over the pages before it.  In all
cases the failure never aborts the batch: the monitoring loop resolves each
quota independently, so the results of a list of quotas are exactly the
concatenation of the results of its parts. -/
theorem strategyFailurePolicy :
    (∀ (cfg : MetricConfig) (quotaCode : Option String) (env : Env) (iid : String),
      iid.isEmpty = false → cfg.scope = some "INSTANCE" →
      ((cfg.method = some "service_quotas" → pyTruthy quotaCode = true →
        env.sqResponse = none →
        processQuotaConfig (some iid) cfg quotaCode env
          = (none, [(cfg.service.getD "connect", true), (cfg.service.getD "connect", false)]))
      ∧ (∀ m, cfg.method = some "cloudwatch" → cfg.metric_name = some m →
          env.cwResponse = none →
          ∃ r, processQuotaConfig (some iid) cfg quotaCode env
              = (some r, [(cfg.service.getD "connect", true)])
            ∧ r.current_usage = 0)
      ∧ (∀ op, cfg.method = some "cloudwatch_api" → cfg.operationKey = some op →
          env.cwApiResponse = none →
          ∃ r, processQuotaConfig (some iid) cfg quotaCode env
              = (some r, [(cfg.service.getD "connect", true)])
            ∧ r.current_usage = 0)))
    ∧ (∀ (pages : ℕ → Option (Page Unit)) (p : ℕ → Page Unit) (k : ℕ), k < maxPages →
        (∀ i, i < k → pages i = some (p i)) → (∀ i, i < k → (p i).nextToken = true) →
        pages k = none →
        countViaPaginationEnhanced pages = ∑ j ∈ Finset.range k, (p j).items.length)
    ∧ (∀ (instanceId : Option String) (qs1 qs2 : List (String × MetricConfig))
        (envOf : String → Env),
        monitorQuotaList instanceId (qs1 ++ qs2) envOf
          = monitorQuotaList instanceId qs1 envOf ++ monitorQuotaList instanceId qs2 envOf) := by
  refine ⟨?_, ?_, ?_⟩
  · intro cfg quotaCode env iid hne hscope
    refine ⟨?_, ?_, ?_⟩
    · intro hm hqc hsq
      have hmon : monitorViaServiceQuotas (cfg.default_limit.getD 0) quotaCode env.sqResponse
          = (none, cfg.default_limit.getD 0) := by
        simp [monitorViaServiceQuotas, hqc, hsq]
      simp [processQuotaConfig, pyTruthy, hscope, hne, hm, hmon]
    · intro m hm hmn hcw
      refine ⟨mkUtilizationResult quotaCode (cfg.name.getD "Unknown Quota")
        (cfg.category.getD "UNKNOWN") "INSTANCE" 0 (cfg.default_limit.getD 0) (some iid)
        (cfg.method.getD "") (cfg.service.getD "connect"), ?_, ?_⟩
      · have hmon : monitorViaCloudwatch cfg.metric_name env.cwResponse = some 0 := by
          rw [hmn, hcw]
          rfl
        simp [processQuotaConfig, pyTruthy, hscope, hne, hm, hmon]
      · simp [mkUtilizationResult]
    · intro op hm hop hca
      refine ⟨mkUtilizationResult quotaCode (cfg.name.getD "Unknown Quota")
        (cfg.category.getD "UNKNOWN") "INSTANCE" 0 (cfg.default_limit.getD 0) (some iid)
        (cfg.method.getD "") (cfg.service.getD "connect"), ?_, ?_⟩
      · have hmon : monitorViaCloudwatchApi cfg.operationKey env.cwApiResponse = some 0 := by
          rw [hop, hca]
          rfl
        simp [processQuotaConfig, pyTruthy, hscope, hne, hm, hmon]
      · simp [mkUtilizationResult]
  · intro pages p k hk hp hn hfail
    have h := countPagesFrom_fail pages p k maxPages 0 hk
      (by intro i hi; simpa using hp i hi)
      (by intro i hi; simpa using hn i hi)
      (by simpa using hfail)
    simpa [countViaPaginationEnhanced] using h
  · intro instanceId qs1 qs2 envOf
    simp [monitorQuotaList, List.filterMap_append]

lemma c7_resolution_eval :
    processQuotaConfig (some "inst-1") c7Cfg (some "QC7") envNoRemote
      = (some c7Result, [("connect", true)]) := by
  simp +decide [processQuotaConfig, c7Cfg, envNoRemote, monitorViaCloudwatch,
    mkUtilizationResult, pyOr, pyTruthy, c7Result, UtilizationResult.mk.injEq]
  norm_num [round2, round_eq]

/-- Counterexample for C7 as stated: a failed metric call (response None)
during cloudwatch-based resolution does not yield null: the quota resolves to
a result fabricating a measured usage of 0, and the owning service is left
marked healthy rather than having the failure recorded. -/
theorem failureYieldsFabricatedZero :
    processQuotaConfig (some "inst-1") c7Cfg (some "QC7") envNoRemote
      = (some c7Result, [("connect", true)])
    ∧ c7Result.current_usage = 0
    ∧ (processQuotaConfig (some "inst-1") c7Cfg (some "QC7") envNoRemote).1 ≠ none := by
  refine ⟨c7_resolution_eval, by norm_num [c7Result], ?_⟩
  rw [c7_resolution_eval]
  simp

/-- Witness for C7 (amended): a service_quotas quota whose lookup fails
resolves to null with the service recorded healthy then degraded. -/
theorem strategyFailurePolicyWitness :
    processQuotaConfig (some "inst-1") c7SqCfg (some "QSQ") envNoRemote
      = (none, [("connect", true), ("connect", false)]) := by
  have h := (strategyFailurePolicy.1 c7SqCfg (some "QSQ") envNoRemote "inst-1"
    (by decide) rfl).1 rfl (by decide) rfl
  simpa [c7SqCfg] using h

lemma filterFlatMap {α β : Type} (l : List α) (f : α → List β) (p : β → Bool) :
    (l.flatMap f).filter p = l.flatMap (fun x => (f x).filter p) := by
  induction l with
  | nil => simp
  | cons a t ih => simp [List.flatMap_cons, List.filter_append, ih]

lemma accountAlertBlock_mem (thr : ℚ) (mr : MonitoringResults) (a : ConsolidatedAlert)
    (ha : a ∈ accountAlertBlock thr mr) :
    a.instance_id = none ∧ a.violations = extractAccountViolations thr mr
      ∧ (extractAccountViolations thr mr).isEmpty = false := by
  unfold accountAlertBlock at ha
  cases hemp : (extractAccountViolations thr mr).isEmpty <;> simp [hemp] at ha
  subst ha
  exact ⟨rfl, rfl, rfl⟩

lemma accountAlertBlock_length (thr : ℚ) (mr : MonitoringResults) :
    (accountAlertBlock thr mr).length
      = if (extractAccountViolations thr mr).isEmpty then 0 else 1 := by
  unfold accountAlertBlock
  cases hemp : (extractAccountViolations thr mr).isEmpty <;> simp [hemp]

lemma accountAlertBlock_filter_none (thr : ℚ) (mr : MonitoringResults) :
    (accountAlertBlock thr mr).filter (fun a => decide (a.instance_id = none))
      = accountAlertBlock thr mr := by
  unfold accountAlertBlock
  cases hemp : (extractAccountViolations thr mr).isEmpty <;> simp [hemp]

lemma accountAlertBlock_filter_some (thr : ℚ) (mr : MonitoringResults) (iid : String) :
    (accountAlertBlock thr mr).filter (fun a => decide (a.instance_id = some iid)) = [] := by
  unfold accountAlertBlock
  cases hemp : (extractAccountViolations thr mr).isEmpty <;> simp [hemp]

lemma instanceAlertBlock_mem (thr : ℚ) (p : String × InstanceData) (a : ConsolidatedAlert)
    (ha : a ∈ instanceAlertBlock thr p) :
    a.instance_id = some p.1 ∧ a.violations = extractInstanceViolations thr p.2
      ∧ (extractInstanceViolations thr p.2).isEmpty = false := by
  unfold instanceAlertBlock at ha
  cases hemp : (extractInstanceViolations thr p.2).isEmpty <;> simp [hemp] at ha
  subst ha
  exact ⟨rfl, rfl, rfl⟩

lemma instanceAlertBlock_filter_self (thr : ℚ) (p : String × InstanceData) :
    ((instanceAlertBlock thr p).filter
        (fun a => decide (a.instance_id = some p.1))).length
      = if (extractInstanceViolations thr p.2).isEmpty then 0 else 1 := by
  unfold instanceAlertBlock
  cases hemp : (extractInstanceViolations thr p.2).isEmpty <;> simp [hemp]

lemma instanceAlertBlock_filter_other (thr : ℚ) (p : String × InstanceData) (iid : String)
    (hne : p.1 ≠ iid) :
    (instanceAlertBlock thr p).filter (fun a => decide (a.instance_id = some iid)) = [] := by
  unfold instanceAlertBlock
  cases hemp : (extractInstanceViolations thr p.2).isEmpty <;> simp [hemp, hne]

lemma instanceAlertBlock_filter_acct (thr : ℚ) (p : String × InstanceData) :
    (instanceAlertBlock thr p).filter (fun a => decide (a.instance_id = none)) = [] := by
  unfold instanceAlertBlock
  cases hemp : (extractInstanceViolations thr p.2).isEmpty <;> simp [hemp]

lemma flatMapFilterUnique (thr : ℚ) (iid : String) (d : InstanceData) :
    ∀ l : List (String × InstanceData), (l.map Prod.fst).Nodup → (iid, d) ∈ l →
      (l.flatMap (fun q => (instanceAlertBlock thr q).filter
          (fun a => decide (a.instance_id = some iid)))).length
        = if (extractInstanceViolations thr d).isEmpty then 0 else 1 := by
  intro l
  induction l with
  | nil =>
    intro _ hmem
    simp at hmem
  | cons q t ih =>
    intro hnd hmem
    rw [List.map_cons] at hnd
    have hnd2 := List.nodup_cons.mp hnd
    simp only [List.flatMap_cons, List.length_append]
    rcases List.mem_cons.mp hmem with heq | hmem2
    · obtain rfl := heq.symm
      have htail : (t.flatMap (fun q2 => (instanceAlertBlock thr q2).filter
          (fun a => decide (a.instance_id = some iid)))) = [] := by
        apply List.flatMap_eq_nil_iff.mpr
        intro q2 hq2
        apply instanceAlertBlock_filter_other
        intro hq2id
        have hx : q2.1 ∈ t.map Prod.fst := List.mem_map_of_mem Prod.fst hq2
        rw [hq2id] at hx
        exact hnd2.1 hx
      rw [htail]
      simpa using instanceAlertBlock_filter_self thr (iid, d)
    · have hqne : q.1 ≠ iid := by
        intro hq
        have hx : iid ∈ t.map Prod.fst := List.mem_map_of_mem Prod.fst hmem2
        rw [← hq] at hx
        exact hnd2.1 hx
      rw [instanceAlertBlock_filter_other thr q iid hqne]
      simpa using ih hnd2.2 hmem2

/-- C4: consolidation produces exactly one alert for the account partition
when it has at least one violation and none otherwise; exactly one alert per
instance partition with at least one violation and none for an instance with
zero violations; and every alert belongs to some violating partition and
carries that partition's complete violation list — never one alert per
individual violating quota. -/
theorem consolidationOneAlertPerPartition :
    ∀ (thr : ℚ) (mr : MonitoringResults),
      (mr.instance_results.map Prod.fst).Nodup →
      (((processMonitoringResults thr mr).filter
          (fun a => decide (a.instance_id = none))).length
        = if (extractAccountViolations thr mr).isEmpty then 0 else 1)
      ∧ (∀ p ∈ mr.instance_results,
          ((processMonitoringResults thr mr).filter
              (fun a => decide (a.instance_id = some p.1))).length
            = if (extractInstanceViolations thr p.2).isEmpty then 0 else 1)
      ∧ (∀ a ∈ processMonitoringResults thr mr,
          (a.instance_id = none ∧ a.violations = extractAccountViolations thr mr
            ∧ (extractAccountViolations thr mr).isEmpty = false)
          ∨ ∃ p ∈ mr.instance_results, a.instance_id = some p.1
              ∧ a.violations = extractInstanceViolations thr p.2
              ∧ (extractInstanceViolations thr p.2).isEmpty = false) := by
  intro thr mr hnd
  refine ⟨?_, ?_, ?_⟩
  · rw [processMonitoringResults, List.filter_append, List.length_append,
      accountAlertBlock_filter_none, filterFlatMap]
    have hblocks : (mr.instance_results.flatMap (fun q => (instanceAlertBlock thr q).filter
        (fun a => decide (a.instance_id = none)))) = [] := by
      apply List.flatMap_eq_nil_iff.mpr
      intro q _
      exact instanceAlertBlock_filter_acct thr q
    rw [hblocks]
    simpa using accountAlertBlock_length thr mr
  · intro p hp
    obtain ⟨iid, d⟩ := p
    rw [processMonitoringResults, List.filter_append, List.length_append,
      accountAlertBlock_filter_some, filterFlatMap]
    simpa using flatMapFilterUnique thr iid d mr.instance_results hnd hp
  · intro a ha
    rw [processMonitoringResults] at ha
    rcases List.mem_append.mp ha with hA | hB
    · exact Or.inl (accountAlertBlock_mem thr mr a hA)
    · obtain ⟨q, hq, haq⟩ := List.mem_flatMap.mp hB
      obtain ⟨h1, h2, h3⟩ := instanceAlertBlock_mem thr q a haq
      exact Or.inr ⟨q, hq, h1, h2, h3⟩

/-- Witness for C4: with two violations on inst-a, none on inst-b and no
account violations, consolidation yields exactly one alert for inst-a and
none for inst-b or the account. -/
theorem consolidationWitness :
    ((processMonitoringResults 80 c4Mr).filter
        (fun a => decide (a.instance_id = some "inst-a"))).length = 1
    ∧ ((processMonitoringResults 80 c4Mr).filter
        (fun a => decide (a.instance_id = some "inst-b"))).length = 0
    ∧ ((processMonitoringResults 80 c4Mr).filter
        (fun a => decide (a.instance_id = none))).length = 0 := by
  have h := consolidationOneAlertPerPartition 80 c4Mr (by decide)
  have hA : extractInstanceViolations 80 ⟨"prod-a", [c5V82, c5V96]⟩ = [c5V82, c5V96] := by
    norm_num [extractInstanceViolations, List.filter_cons, c5V82, c5V96]
  have hB : extractInstanceViolations 80 ⟨"prod-b", [c4V10]⟩ = [] := by
    norm_num [extractInstanceViolations, List.filter_cons, c4V10, c5V96]
  have hAcct : extractAccountViolations 80 c4Mr = [] := by
    simp [extractAccountViolations, c4Mr]
  refine ⟨?_, ?_, ?_⟩
  · have h2 := h.2.1 ("inst-a", ⟨"prod-a", [c5V82, c5V96]⟩) (by simp [c4Mr])
    rw [h2, hA]
    simp
  · have h2 := h.2.1 ("inst-b", ⟨"prod-b", [c4V10]⟩) (by simp [c4Mr])
    rw [h2, hB]
    simp
  · rw [h.1, hAcct]
    simp

/-- Witness for C10: the first catalog entry is account-scoped and lies in
the account-level selection and not in the instance-level selection. -/
theorem catalogScopeWitness :
    ("L-22922690", "ACCOUNT") ∈ getAccountLevelQuotas
    ∧ ("L-22922690", "ACCOUNT") ∉ getInstanceLevelQuotas := by
  have h := catalogScopePartition.2.2.1 ("L-22922690", "ACCOUNT") (by decide)
  rcases h with ⟨h1, h2⟩ | ⟨h1, h2⟩
  · exact ⟨h1, h2⟩
  · exact absurd h1 (by decide)

end ConnectQuotaMonitor
